import Mathlib

/-!
# QdrantConnector: a shallow embedding

A shallow embedding of `src/mcp_server_qdrant/qdrant.py` — the
`QdrantConnector` class — together with a model of its two external
collaborators, the embedding provider and the Qdrant client.

External behavior (embedding results, upsert/create failures, uuid draws,
similarity scores) is packaged into a `World` record, so each connector
operation is a pure function from a `World`, a database state, and its
arguments to a result, a new database state, and the trace of external
calls it issued.
-/

namespace MCPQdrant

/-- An embedding vector (floats in the source, modelled as integers). -/
abbrev Vec := List Int

/-- A metadata mapping (a JSON object in the source, modelled as an
association list of string keys and string values). -/
abbrev Metadata := List (String × String)

/-- A value stored under one payload key: either a document string or a
(possibly null) metadata mapping. -/
inductive PVal where
  | pstr : String → PVal
  | pmeta : Option Metadata → PVal
deriving DecidableEq

/-- A point payload: a finite mapping from string keys to values. -/
abbrev Payload := List (String × PVal)

/-- Dictionary lookup on a payload (`payload.get(key)` in the source). -/
def payloadGet : Payload → String → Option PVal
  | [], _ => none
  | (k, v) :: rest, key => if k = key then some v else payloadGet rest key

/-- Modelled from the spec: the constant `METADATA_PATH` is imported from
the settings module, which is not part of the connector source.  The spec
says each point's payload uses "a metadata key whose path is a configured
constant" and that the key is "stable across reads and writes for
round-tripping to work"; since `search` reads the metadata back under the
literal key "metadata", the configured constant is that same key. -/
def METADATA_PATH : String := "metadata"

/-- Source `Entry`: a stored unit of memory. -/
structure Entry where
  content : String
  metadata : Option Metadata
deriving DecidableEq

/-- Source `BatchEntry`: an entry for batch operations, with an
optional caller-supplied id. -/
structure BatchEntry where
  content : String
  metadata : Option Metadata
  id : Option String
deriving DecidableEq

/-- The four distance metrics of `models.Distance` used by the source. -/
inductive Distance where
  | cosine | dot | euclid | manhattan
deriving DecidableEq

/-- Source `models.VectorParams`: dimensionality and distance of a vector slot. -/
structure VectorParams where
  size : Nat
  distance : Distance
deriving DecidableEq

/-- One stored point: identifier, named vectors, payload. -/
structure Point where
  id : String
  vector : List (String × Vec)
  payload : Payload
deriving DecidableEq

/-- Server-side state of one collection. -/
structure Collection where
  vectorsConfig : List (String × VectorParams)
  points : List Point
  indexes : List String
deriving DecidableEq

/-- Server-side state of the backing database: named collections. -/
structure DBState where
  collections : List (String × Collection)
deriving DecidableEq

/-- Association-list lookup of a collection by name. -/
def lookupCol : List (String × Collection) → String → Option Collection
  | [], _ => none
  | (m, c) :: rest, n => if m = n then some c else lookupCol rest n

/-- Association-list insert-or-replace of a collection. -/
def insertCol : List (String × Collection) → String → Collection → List (String × Collection)
  | [], n, c => [(n, c)]
  | (m, d) :: rest, n, c =>
    if m = n then (n, c) :: rest else (m, d) :: insertCol rest n c

/-- The `client.collection_exists` check as a pure state observation. -/
def DBState.hasCol (st : DBState) (n : String) : Bool :=
  (lookupCol st.collections n).isSome

/-- Net effect of an upsert on one collection: points whose id matches an
incoming point are replaced, the incoming points are appended. -/
def Collection.upsert (col : Collection) (pts : List Point) : Collection :=
  { col with
    points := col.points.filter (fun p => pts.all (fun q => q.id != p.id)) ++ pts }

/-- Upsert points into a named collection of the database state. -/
def upsertState (st : DBState) (cname : String) (pts : List Point) : DBState :=
  match lookupCol st.collections cname with
  | none => st
  | some col => ⟨insertCol st.collections cname (col.upsert pts)⟩

/-- Net effect of `create_payload_index` for each configured field. -/
def applyIndexes (col : Collection) (fis : List (String × String)) : Collection :=
  { col with indexes := col.indexes ++ fis.map Prod.fst }

/-- One external call issued by a connector operation: database client
calls and embedding-provider calls. -/
inductive Call where
  | collectionExists : Option String → Call
  | createCollection : String → Call
  | createPayloadIndex : String → String → Call
  | upsert : String → Nat → Call
  | queryPoints : String → Call
  | scroll : String → Call
  | embedDocuments : Nat → Call
  | embedQuery : String → Call
deriving DecidableEq

/-- An exception surfaced by a connector operation. -/
inductive Err where
  | assertionError
  | embeddingError : String → Err
  | clientError : String → Err
deriving DecidableEq

/-- The embedding provider contract consumed by the connector. -/
structure EmbeddingProvider where
  embedDoc : String → Except String Vec
  embedQuery : String → Except String Vec
  vectorName : String
  vectorSize : Nat

/-- External nondeterminism: uuid draws, client failures, similarity. -/
structure World where
  uuidHex : Nat → String
  upsertErr : Option String := none
  createErr : Option String := none
  scrollErr : Option String := none
  sim : Vec → Vec → Int := fun _ _ => 0

/-- The connector's configuration (constructor arguments that the
operations read). -/
structure Connector where
  defaultCollection : Option String
  provider : EmbeddingProvider
  fieldIndexes : List (String × String)

/-- Result of one connector operation: outcome, post-state, call trace. -/
structure Out (α : Type) where
  res : Except Err α
  st : DBState
  trace : List Call

/-- Python `a or b` on an optional string: `None` and `""` are falsy. -/
def pyOr (a b : Option String) : Option String :=
  match a with
  | some s => if s = "" then b else some s
  | none => b

/-- Python `a or b` where `a` is an optional string and `b` a string
(used for `entry.id or uuid.uuid4().hex`). -/
def pyOrStr (a : Option String) (b : String) : String :=
  match a with
  | some s => if s = "" then b else s
  | none => b

/-- Source `QdrantConnector._ensure_collection_exists`: check existence; if
absent, create the collection with a single vector slot named per the
provider, size per the provider, cosine distance, then create every
configured payload index.  Returns the new state and the call trace. -/
def ensure_collection_exists (c : Connector) (st : DBState) (name : String) :
    DBState × List Call :=
  match lookupCol st.collections name with
  | some _ => (st, [.collectionExists (some name)])
  | none =>
    let col : Collection :=
      applyIndexes ⟨[(c.provider.vectorName, ⟨c.provider.vectorSize, .cosine⟩)], [], []⟩
        c.fieldIndexes
    (⟨insertCol st.collections name col⟩,
      [.collectionExists (some name), .createCollection name]
        ++ c.fieldIndexes.map (fun fi => Call.createPayloadIndex name fi.1))

/-- Source `QdrantConnector.store`: resolve the collection name (assert), ensure
the collection exists, embed the one document, upsert one point with a
fresh uuid, the provider's vector slot name, and the payload
`{"document": content, METADATA_PATH: metadata}`.  Embedding and client
failures propagate. -/
def store (c : Connector) (w : World) (st : DBState) (entry : Entry)
    (collectionName : Option String) : Out Unit :=
  match pyOr collectionName c.defaultCollection with
  | none => ⟨.error .assertionError, st, []⟩
  | some cname =>
    let r := ensure_collection_exists c st cname
    match c.provider.embedDoc entry.content with
    | .error e => ⟨.error (.embeddingError e), r.1, r.2 ++ [.embedDocuments 1]⟩
    | .ok v =>
      let payload : Payload :=
        [("document", .pstr entry.content), (METADATA_PATH, .pmeta entry.metadata)]
      let pt : Point := ⟨w.uuidHex 0, [(c.provider.vectorName, v)], payload⟩
      match w.upsertErr with
      | some e =>
        ⟨.error (.clientError e), r.1, r.2 ++ [.embedDocuments 1, .upsert cname 1]⟩
      | none =>
        ⟨.ok (), upsertState r.1 cname [pt],
          r.2 ++ [.embedDocuments 1, .upsert cname 1]⟩

/-- The `client.query_points` call modelled: score every point that carries a
vector under the requested slot name, drop scores below the threshold if
one is given, rank by descending score, truncate to the limit. -/
def lookupVec : List (String × Vec) → String → Option Vec
  | [], _ => none
  | (m, v) :: rest, n => if m = n then some v else lookupVec rest n

/-- Insert into a descending-score list, before the first strictly
smaller element (stable descending insertion). -/
def insertDesc (x : Point × Int) : List (Point × Int) → List (Point × Int)
  | [] => [x]
  | y :: ys => if y.2 < x.2 then x :: y :: ys else y :: insertDesc x ys

/-- Stable insertion sort by descending score. -/
def sortDesc : List (Point × Int) → List (Point × Int)
  | [] => []
  | x :: xs => insertDesc x (sortDesc xs)

/-- The query-points call of the backing database, as a pure model. -/
def queryPointsModel (w : World) (col : Collection) (qv : Vec)
    (uname : String) (limit : Nat) (threshold : Option Int) :
    List (Point × Int) :=
  let scored := col.points.filterMap
    (fun p => (lookupVec p.vector uname).map (fun v => (p, w.sim qv v)))
  let kept := match threshold with
    | none => scored
    | some t => scored.filter (fun x => decide (t ≤ x.2))
  (sortDesc kept).take limit

/-- Mapping one returned payload back to an `Entry`
(`Entry(content=payload["document"], metadata=payload.get(metaKey))`).
A missing document key is a `KeyError`; a value of the wrong shape is a
validation error. -/
def entryFromPayload (metaKey : String) (p : Payload) : Except Err Entry :=
  match payloadGet p "document" with
  | some (.pstr s) =>
    match payloadGet p metaKey with
    | some (.pmeta m) => .ok ⟨s, m⟩
    | none => .ok ⟨s, none⟩
    | some (.pstr _) => .error (.clientError "validation error")
  | some (.pmeta _) => .error (.clientError "validation error")
  | none => .error (.clientError "KeyError: document")

/-- Traversal of a list under `Except`, failing on the first error (the
source's result-mapping list comprehensions and loops). -/
def mapExcept (f : α → Except Err β) : List α → Except Err (List β)
  | [] => .ok []
  | x :: xs =>
    match f x with
    | .error e => .error e
    | .ok y =>
      match mapExcept f xs with
      | .error e => .error e
      | .ok ys => .ok (y :: ys)

/-- Source `QdrantConnector.search`: resolve the name (no assert — a missing
name is passed straight to the existence check), short-circuit to `[]`
when the collection does not exist, embed the query, query points, map
payloads back to entries reading metadata under the literal key
`"metadata"`.  Nothing is caught: embedding and mapping failures
propagate. -/
def search (c : Connector) (w : World) (st : DBState) (query : String)
    (collectionName : Option String) (limit : Nat) : Out (List Entry) :=
  match pyOr collectionName c.defaultCollection with
  | none =>
    ⟨.error (.clientError "collection_exists called with None"), st,
      [.collectionExists none]⟩
  | some cname =>
    match lookupCol st.collections cname with
    | none => ⟨.ok [], st, [.collectionExists (some cname)]⟩
    | some col =>
      match c.provider.embedQuery query with
      | .error e =>
        ⟨.error (.embeddingError e), st,
          [.collectionExists (some cname), .embedQuery query]⟩
      | .ok qv =>
        let results := queryPointsModel w col qv c.provider.vectorName limit none
        let tr : List Call :=
          [.collectionExists (some cname), .embedQuery query, .queryPoints cname]
        match mapExcept (fun pr => entryFromPayload "metadata" pr.1.payload) results with
        | .error er => ⟨.error er, st, tr⟩
        | .ok es => ⟨.ok es, st, tr⟩

/-- Source `embed_documents` over a whole batch: one provider call that fails as
a whole if any document fails. -/
def embedDocuments (p : EmbeddingProvider) : List String → Except String (List Vec)
  | [] => .ok []
  | d :: ds =>
    match p.embedDoc d with
    | .error e => .error e
    | .ok v =>
      match embedDocuments p ds with
      | .error e => .error e
      | .ok vs => .ok (v :: vs)

/-- The point-construction loop of `batch_store`: each entry whose id is
`None` or `""` consumes the next uuid draw (`entry.id or uuid.uuid4().hex`). -/
def buildPoints (vname : String) (mdKey : String) (w : World) :
    List (BatchEntry × Vec) → Nat → List Point
  | [], _ => []
  | (e, v) :: rest, k =>
    let payload : Payload := [("document", .pstr e.content), (mdKey, .pmeta e.metadata)]
    match e.id with
    | some s =>
      if s = "" then
        ⟨w.uuidHex k, [(vname, v)], payload⟩ :: buildPoints vname mdKey w rest (k + 1)
      else
        ⟨s, [(vname, v)], payload⟩ :: buildPoints vname mdKey w rest k
    | none =>
      ⟨w.uuidHex k, [(vname, v)], payload⟩ :: buildPoints vname mdKey w rest (k + 1)

/-- Source `QdrantConnector.batch_store`: resolve the name (assert), ensure the
collection exists, then inside a try block: embed all contents in one
call, build one point per entry, upsert the batch, return the number of
points; any exception inside the block is logged and `0` is returned. -/
def batch_store (c : Connector) (w : World) (st : DBState)
    (entries : List BatchEntry) (collectionName : Option String) : Out Nat :=
  match pyOr collectionName c.defaultCollection with
  | none => ⟨.error .assertionError, st, []⟩
  | some cname =>
    let r := ensure_collection_exists c st cname
    match embedDocuments c.provider (entries.map (·.content)) with
    | .error _ => ⟨.ok 0, r.1, r.2 ++ [.embedDocuments entries.length]⟩
    | .ok vs =>
      let pts := buildPoints c.provider.vectorName METADATA_PATH w (entries.zip vs) 0
      match w.upsertErr with
      | some _ =>
        ⟨.ok 0, r.1, r.2 ++ [.embedDocuments entries.length, .upsert cname pts.length]⟩
      | none =>
        ⟨.ok pts.length, upsertState r.1 cname pts,
          r.2 ++ [.embedDocuments entries.length, .upsert cname pts.length]⟩

/-- The scroll call of the backing database: points starting at the
offset id (all points when the offset is null), one page of at most
`limit` points, and the id of the next point as the continuation cursor
(null at end of collection). -/
def scrollModel (col : Collection) (limit : Nat) (offset : Option String) :
    List Point × Option String :=
  let ps := match offset with
    | none => col.points
    | some o => col.points.dropWhile (fun p => p.id != o)
  (ps.take limit, ((ps.drop limit).head?).map Point.id)

/-- Mapping one scrolled point to an `Entry`: with a truthy payload,
content from `payload.get("document", "")` and metadata from
`payload.get(METADATA_PATH)`; otherwise the synthetic entry
`Entry(content=f"Point ID: {id}", metadata={"point_id": id})`. -/
def scrollEntry (withPayload : Bool) (p : Point) : Except Err Entry :=
  if withPayload && !p.payload.isEmpty then
    match payloadGet p.payload "document", payloadGet p.payload METADATA_PATH with
    | some (.pmeta _), _ => .error (.clientError "validation error")
    | some (.pstr s), some (.pmeta m) => .ok ⟨s, m⟩
    | some (.pstr _), some (.pstr _) => .error (.clientError "validation error")
    | some (.pstr s), none => .ok ⟨s, none⟩
    | none, some (.pmeta m) => .ok ⟨"", m⟩
    | none, some (.pstr _) => .error (.clientError "validation error")
    | none, none => .ok ⟨"", none⟩
  else
    .ok ⟨"Point ID: " ++ p.id, some [("point_id", p.id)]⟩

/-- Source `QdrantConnector.scroll_collection`: resolve the name (assert),
return `([], None)` when the collection does not exist, otherwise scroll
one page and map every point to an entry; any exception inside the try
block is logged and `([], None)` is returned. -/
def scroll_collection (c : Connector) (w : World) (st : DBState)
    (collectionName : Option String) (limit : Nat) (offset : Option String)
    (withPayload : Bool) : Out (List Entry × Option String) :=
  match pyOr collectionName c.defaultCollection with
  | none => ⟨.error .assertionError, st, []⟩
  | some cname =>
    match lookupCol st.collections cname with
    | none => ⟨.ok ([], none), st, [.collectionExists (some cname)]⟩
    | some col =>
      let tr : List Call := [.collectionExists (some cname), .scroll cname]
      match w.scrollErr with
      | some _ => ⟨.ok ([], none), st, tr⟩
      | none =>
        let page := scrollModel col limit offset
        match mapExcept (scrollEntry withPayload) page.1 with
        | .error _ => ⟨.ok ([], none), st, tr⟩
        | .ok es => ⟨.ok (es, page.2), st, tr⟩

/-- Source `QdrantConnector.hybrid_search`: resolve the name (no assert — a
missing name is passed straight to the existence check), short-circuit
to `[]` when the collection does not exist, then inside a try block:
embed the query, query points with the score threshold, map payloads
(metadata under `METADATA_PATH`) with their scores; any exception inside
the block is logged and `[]` is returned. -/
def hybrid_search (c : Connector) (w : World) (st : DBState) (query : String)
    (collectionName : Option String) (limit : Nat) (minScore : Option Int) :
    Out (List (Entry × Int)) :=
  match pyOr collectionName c.defaultCollection with
  | none =>
    ⟨.error (.clientError "collection_exists called with None"), st,
      [.collectionExists none]⟩
  | some cname =>
    match lookupCol st.collections cname with
    | none => ⟨.ok [], st, [.collectionExists (some cname)]⟩
    | some col =>
      match c.provider.embedQuery query with
      | .error _ =>
        ⟨.ok [], st, [.collectionExists (some cname), .embedQuery query]⟩
      | .ok qv =>
        let results := queryPointsModel w col qv c.provider.vectorName limit minScore
        let tr : List Call :=
          [.collectionExists (some cname), .embedQuery query, .queryPoints cname]
        match mapExcept
            (fun pr => (entryFromPayload METADATA_PATH pr.1.payload).map
              (fun e => (e, pr.2))) results with
        | .error _ => ⟨.ok [], st, tr⟩
        | .ok rs => ⟨.ok rs, st, tr⟩

/-- The `distance_map` dictionary of `create_collection_with_config`. -/
def distance_map : List (String × Distance) :=
  [("cosine", .cosine), ("dot", .dot), ("euclidean", .euclid), ("manhattan", .manhattan)]

/-- Association-list lookup on the distance map. -/
def lookupDistance : List (String × Distance) → String → Option Distance
  | [], _ => none
  | (m, d) :: rest, n => if m = n then some d else lookupDistance rest n

/-- Python's `str.lower()`, mapped characterwise (they agree on the
ASCII metric names the distance map contains). -/
def pyLower (s : String) : String := ⟨s.data.map Char.toLower⟩

/-- Source expression `distance_map.get(distance.lower(), models.Distance.COSINE)`. -/
def parseDistance (s : String) : Distance :=
  (lookupDistance distance_map (pyLower s)).getD .cosine

/-- Source `QdrantConnector.create_collection_with_config`: map the distance
string through `distance_map` (falling back to cosine), create the
collection with one vector slot named after the supplied provider (or
the connector's default provider), apply configured field indexes, and
return `True`; any exception is logged and `False` is returned.  The
client call fails when the collection already exists or the world says
creation fails. -/
def create_collection_with_config (c : Connector) (w : World) (st : DBState)
    (collectionName : String) (vectorSize : Nat) (distance : String)
    (embeddingProvider : Option EmbeddingProvider) : Out Bool :=
  let dm := parseDistance distance
  let vname := match embeddingProvider with
    | some p => p.vectorName
    | none => c.provider.vectorName
  if (lookupCol st.collections collectionName).isSome then
    ⟨.ok false, st, [.createCollection collectionName]⟩
  else
    match w.createErr with
    | some _ => ⟨.ok false, st, [.createCollection collectionName]⟩
    | none =>
      let col : Collection := applyIndexes ⟨[(vname, ⟨vectorSize, dm⟩)], [], []⟩ c.fieldIndexes
      ⟨.ok true, ⟨insertCol st.collections collectionName col⟩,
        [.createCollection collectionName]
          ++ c.fieldIndexes.map (fun fi => Call.createPayloadIndex collectionName fi.1)⟩

/-- Number of collection-creation calls in a trace. -/
def countCreates : List Call → Nat
  | [] => 0
  | .createCollection _ :: rest => countCreates rest + 1
  | _ :: rest => countCreates rest

/-- Number of payload-index-creation calls in a trace. -/
def countIndexCalls : List Call → Nat
  | [] => 0
  | .createPayloadIndex _ _ :: rest => countIndexCalls rest + 1
  | _ :: rest => countIndexCalls rest

/-- Is every payload value under the two well-known keys of the expected
shape (a string under "document", a metadata mapping under the metadata
key)?  Payloads written by this connector always are. -/
def wellTypedPayload (p : Payload) : Bool :=
  (match payloadGet p "document" with
   | some (.pmeta _) => false
   | _ => true) &&
  (match payloadGet p METADATA_PATH with
   | some (.pstr _) => false
   | _ => true)

/-! ## Fixtures: a concrete provider, world, and states for witnesses -/

/-- A concrete deterministic embedding provider for witnesses. -/
def provA : EmbeddingProvider :=
  ⟨fun s => .ok [Int.ofNat s.length], fun s => .ok [Int.ofNat s.length],
    "fast-all-minilm-l6-v2", 384⟩

/-- A concrete failure-free world for witnesses. -/
def wA : World := { uuidHex := fun n => "uuid" ++ toString n }

/-- A connector with no default collection name. -/
def connNoDefault : Connector := ⟨none, provA, []⟩

/-- A connector with a default collection name and one field index. -/
def connA : Connector := ⟨some "memories", provA, [("tag", "keyword")]⟩

/-- The empty database state. -/
def st0 : DBState := ⟨[]⟩

/-! ## Helper lemmas -/

theorem lookupCol_insertCol_self (l : List (String × Collection)) (n : String)
    (c : Collection) : lookupCol (insertCol l n c) n = some c := by
  induction l with
  | nil => simp [insertCol, lookupCol]
  | cons hd tl ih =>
    obtain ⟨m, d⟩ := hd
    by_cases hh : m = n
    · simp [insertCol, hh, lookupCol]
    · simp [insertCol, hh, lookupCol, ih]

theorem hasCol_false_iff (st : DBState) (n : String) :
    st.hasCol n = false ↔ lookupCol st.collections n = none := by
  cases h : lookupCol st.collections n <;> simp [DBState.hasCol, h]

theorem hasCol_true_iff (st : DBState) (n : String) :
    st.hasCol n = true ↔ ∃ c, lookupCol st.collections n = some c := by
  cases h : lookupCol st.collections n <;> simp [DBState.hasCol, h]

theorem countCreates_append (a b : List Call) :
    countCreates (a ++ b) = countCreates a + countCreates b := by
  induction a with
  | nil => simp [countCreates]
  | cons x rest ih => cases x <;> simp [countCreates, ih] <;> omega

theorem countIndexCalls_append (a b : List Call) :
    countIndexCalls (a ++ b) = countIndexCalls a + countIndexCalls b := by
  induction a with
  | nil => simp [countIndexCalls]
  | cons x rest ih => cases x <;> simp [countIndexCalls, ih] <;> omega

theorem countCreates_map_index (name : String) (l : List (String × String)) :
    countCreates (l.map (fun fi => Call.createPayloadIndex name fi.1)) = 0 := by
  induction l with
  | nil => rfl
  | cons x rest ih => simp [countCreates, ih]

theorem countIndexCalls_map_index (name : String) (l : List (String × String)) :
    countIndexCalls (l.map (fun fi => Call.createPayloadIndex name fi.1)) = l.length := by
  induction l with
  | nil => rfl
  | cons x rest ih => simp [countIndexCalls, ih]

theorem embedDocuments_length (p : EmbeddingProvider) (ds : List String)
    (vs : List Vec) (h : embedDocuments p ds = .ok vs) : vs.length = ds.length := by
  induction ds generalizing vs with
  | nil =>
    simp [embedDocuments] at h
    simp [← h]
  | cons d rest ih =>
    rw [embedDocuments] at h
    cases hd : p.embedDoc d with
    | error e => rw [hd] at h; cases h
    | ok v =>
      rw [hd] at h
      cases hr : embedDocuments p rest with
      | error e => rw [hr] at h; cases h
      | ok vs0 =>
        rw [hr] at h
        cases h
        simp [ih vs0 hr]

theorem buildPoints_length (vn md : String) (w : World)
    (l : List (BatchEntry × Vec)) (k : Nat) :
    (buildPoints vn md w l k).length = l.length := by
  induction l generalizing k with
  | nil => rfl
  | cons x rest ih =>
    obtain ⟨e, v⟩ := x
    cases he : e.id with
    | none => simp [buildPoints, he, ih]
    | some s =>
      by_cases hs : s = "" <;> simp [buildPoints, he, hs, ih]

theorem mapExcept_ok_length (f : α → Except Err β) (l : List α) (es : List β)
    (h : mapExcept f l = .ok es) : es.length = l.length := by
  induction l generalizing es with
  | nil => simp [mapExcept] at h; simp [← h]
  | cons x rest ih =>
    rw [mapExcept] at h
    cases hx : f x with
    | error e => rw [hx] at h; cases h
    | ok y =>
      rw [hx] at h
      cases hr : mapExcept f rest with
      | error e => rw [hr] at h; cases h
      | ok ys =>
        rw [hr] at h
        cases h
        simp [ih ys hr]

theorem mapExcept_mem (f : α → Except Err β) (l : List α) (es : List β)
    (h : mapExcept f l = .ok es) (x : α) (hx : x ∈ l) (y : β)
    (hy : f x = .ok y) : y ∈ es := by
  induction l generalizing es with
  | nil => cases hx
  | cons a rest ih =>
    rw [mapExcept] at h
    cases ha : f a with
    | error e => rw [ha] at h; cases h
    | ok b =>
      rw [ha] at h
      cases hr : mapExcept f rest with
      | error e => rw [hr] at h; cases h
      | ok bs =>
        rw [hr] at h
        cases h
        rcases List.mem_cons.mp hx with hxa | hxr
        · subst hxa
          rw [ha] at hy
          cases hy
          exact List.mem_cons_self _ _
        · exact List.mem_cons_of_mem _ (ih _ hr hxr)

theorem mapExcept_total (f : α → Except Err β) (l : List α)
    (h : ∀ x ∈ l, ∃ y, f x = .ok y) : ∃ es, mapExcept f l = .ok es := by
  induction l with
  | nil => exact ⟨[], rfl⟩
  | cons a rest ih =>
    obtain ⟨b, hb⟩ := h a (List.mem_cons_self a rest)
    obtain ⟨bs, hbs⟩ := ih (fun x hx => h x (List.mem_cons_of_mem a hx))
    exact ⟨b :: bs, by rw [mapExcept, hb, hbs]⟩

/-! ## C2 -/

/-- C2: the claim as frozen is false for `search`: with no collection
name supplied and no connector default, `search` does not fail with an
assertion-style violation before any external call — it issues a
database existence check carrying the unresolved (null) name. -/
theorem C2_counterexample :
    ¬ ((search connNoDefault wA st0 "q" none 10).res =
          Except.error Err.assertionError ∧
       (search connNoDefault wA st0 "q" none 10).trace = []) := by
  intro h
  have h1 := h.2
  simp [search, connNoDefault, pyOr, st0] at h1

/-- C2 (amended): with no collection name supplied and no connector
default, `store`, `batch_store` and `scroll_collection` fail immediately
with an assertion-style precondition violation before any
embedding-provider or database call, but `search` and `hybrid_search` do
not assert: each issues a database existence check with the unresolved
(null) collection name, so their failure is a client error, not an
assertion. -/
theorem C2_amended (c : Connector) (w : World) (st : DBState)
    (e : Entry) (entries : List BatchEntry) (q : String) (lim : Nat)
    (off : Option String) (wp : Bool) (ms : Option Int)
    (h : c.defaultCollection = none) :
    ((store c w st e none).res = .error .assertionError ∧
      (store c w st e none).trace = []) ∧
    ((batch_store c w st entries none).res = .error .assertionError ∧
      (batch_store c w st entries none).trace = []) ∧
    ((scroll_collection c w st none lim off wp).res = .error .assertionError ∧
      (scroll_collection c w st none lim off wp).trace = []) ∧
    ((search c w st q none lim).trace = [Call.collectionExists none] ∧
      (search c w st q none lim).res ≠ .error .assertionError) ∧
    ((hybrid_search c w st q none lim ms).trace = [Call.collectionExists none] ∧
      (hybrid_search c w st q none lim ms).res ≠ .error .assertionError) := by
  simp [store, batch_store, scroll_collection, search, hybrid_search, pyOr, h]

/-- Witness for C2 (amended) at a concrete connector and inputs. -/
theorem C2_amended_witness :
    connNoDefault.defaultCollection = none ∧
    (store connNoDefault wA st0 ⟨"a", none⟩ none).res =
      Except.error Err.assertionError := by
  refine ⟨rfl, ?_⟩
  exact (C2_amended connNoDefault wA st0 ⟨"a", none⟩ [] "q" 10 none true none rfl).1.1

/-! ## C4 -/

/-- C4: against a collection name that resolves but has never been
created, `search` and `hybrid_search` return an empty sequence and
`scroll_collection` returns an empty sequence with a none cursor, all
without raising, and the only external call any of them makes is the
existence check — no embedding and no query call. -/
theorem C4_nonexistent_collection_reads (c : Connector) (w : World)
    (st : DBState) (arg : Option String) (cname : String) (q : String)
    (lim lim2 lim3 : Nat) (off : Option String) (wp : Bool) (ms : Option Int)
    (hres : pyOr arg c.defaultCollection = some cname)
    (hnew : st.hasCol cname = false) :
    ((search c w st q arg lim).res = .ok [] ∧
      (search c w st q arg lim).trace = [Call.collectionExists (some cname)]) ∧
    ((hybrid_search c w st q arg lim2 ms).res = .ok [] ∧
      (hybrid_search c w st q arg lim2 ms).trace = [Call.collectionExists (some cname)]) ∧
    ((scroll_collection c w st arg lim3 off wp).res = .ok ([], none) ∧
      (scroll_collection c w st arg lim3 off wp).trace =
        [Call.collectionExists (some cname)]) := by
  have hl : lookupCol st.collections cname = none := (hasCol_false_iff st cname).mp hnew
  simp [search, hybrid_search, scroll_collection, hres, hl]

/-- Witness for C4 at a concrete connector, state, and inputs. -/
theorem C4_witness :
    pyOr none connA.defaultCollection = some "memories" ∧
    st0.hasCol "memories" = false ∧
    (search connA wA st0 "q" none 10).res = .ok [] := by
  refine ⟨rfl, rfl, ?_⟩
  exact (C4_nonexistent_collection_reads connA wA st0 none "memories" "q" 10 10 100
    none true none rfl rfl).1.1

/-! ## C5 -/

/-- C5: invoking the ensure-collection-exists primitive twice in
sequence on a not-yet-created name issues exactly one collection-creation
call across the two invocations; the second invocation observes the
collection as existing, changes nothing, and performs no creation and no
index-creation calls. -/
theorem C5_ensure_idempotent (c : Connector) (st : DBState) (name : String)
    (hnew : st.hasCol name = false) :
    countCreates ((ensure_collection_exists c st name).2 ++
      (ensure_collection_exists c (ensure_collection_exists c st name).1 name).2) = 1 ∧
    (ensure_collection_exists c st name).1.hasCol name = true ∧
    (ensure_collection_exists c (ensure_collection_exists c st name).1 name).2 =
      [Call.collectionExists (some name)] ∧
    countCreates
      (ensure_collection_exists c (ensure_collection_exists c st name).1 name).2 = 0 ∧
    countIndexCalls
      (ensure_collection_exists c (ensure_collection_exists c st name).1 name).2 = 0 ∧
    (ensure_collection_exists c (ensure_collection_exists c st name).1 name).1 =
      (ensure_collection_exists c st name).1 := by
  have hl : lookupCol st.collections name = none := (hasCol_false_iff st name).mp hnew
  refine ⟨?_, ?_, ?_, ?_, ?_, ?_⟩ <;>
    simp [ensure_collection_exists, hl, lookupCol_insertCol_self, DBState.hasCol,
      countCreates_append, countCreates, countIndexCalls, countCreates_map_index]

/-- Witness for C5 at a concrete connector, state, and name. -/
theorem C5_witness :
    st0.hasCol "memories" = false ∧
    countCreates ((ensure_collection_exists connA st0 "memories").2 ++
      (ensure_collection_exists connA
        (ensure_collection_exists connA st0 "memories").1 "memories").2) = 1 := by
  refine ⟨rfl, ?_⟩
  exact (C5_ensure_idempotent connA st0 "memories" rfl).1

/-! ## C7 -/

/-- C7: for a resolvable collection name, `store` catches nothing: an
embedding-provider failure propagates as that embedding error, a client
failure during upsert propagates as that client error, and the call
succeeds (returning the unit value) exactly when neither failure
occurs. -/
theorem C7_store_propagates (c : Connector) (w : World) (st : DBState)
    (e : Entry) (arg : Option String) (cname : String)
    (hres : pyOr arg c.defaultCollection = some cname) :
    ((store c w st e arg).res = .ok () ↔
      (∃ v, c.provider.embedDoc e.content = .ok v) ∧ w.upsertErr = none) ∧
    (∀ msg, c.provider.embedDoc e.content = .error msg →
      (store c w st e arg).res = .error (.embeddingError msg)) ∧
    (∀ v msg, c.provider.embedDoc e.content = .ok v → w.upsertErr = some msg →
      (store c w st e arg).res = .error (.clientError msg)) := by
  cases hemb : c.provider.embedDoc e.content <;> cases hup : w.upsertErr <;>
    simp [store, hres, hemb, hup]

/-- Witness for C7 at a concrete connector and entry. -/
theorem C7_witness :
    pyOr none connA.defaultCollection = some "memories" ∧
    (store connA wA st0 ⟨"hello", none⟩ none).res = .ok () := by
  refine ⟨rfl, ?_⟩
  exact ((C7_store_propagates connA wA st0 ⟨"hello", none⟩ none "memories" rfl).1).mpr
    ⟨⟨[5], rfl⟩, rfl⟩

/-! ## C3 -/

/-- C3: for a resolvable collection name, `batch_store` returns exactly
the number of entries when the batched embedding call and the batch
upsert both succeed, and returns exactly 0 — without surfacing the
exception — whenever the embedding call or the upsert fails; it never
returns any other count. -/
theorem C3_batch_all_or_nothing (c : Connector) (w : World) (st : DBState)
    (entries : List BatchEntry) (arg : Option String) (cname : String)
    (hres : pyOr arg c.defaultCollection = some cname) :
    (∀ vs, embedDocuments c.provider (entries.map (·.content)) = .ok vs →
      w.upsertErr = none →
      (batch_store c w st entries arg).res = .ok entries.length) ∧
    (∀ msg, embedDocuments c.provider (entries.map (·.content)) = .error msg →
      (batch_store c w st entries arg).res = .ok 0) ∧
    (∀ msg, w.upsertErr = some msg →
      (batch_store c w st entries arg).res = .ok 0) ∧
    ((batch_store c w st entries arg).res = .ok entries.length ∨
      (batch_store c w st entries arg).res = .ok 0) := by
  have hlen : ∀ vs, embedDocuments c.provider (entries.map (·.content)) = .ok vs →
      (buildPoints c.provider.vectorName METADATA_PATH w (entries.zip vs) 0).length =
        entries.length := by
    intro vs hvs
    have h1 := embedDocuments_length c.provider (entries.map (·.content)) vs hvs
    rw [buildPoints_length]
    rw [List.length_zip]
    simp at h1
    omega
  refine ⟨?_, ?_, ?_, ?_⟩
  · intro vs hvs hup
    simp [batch_store, hres, hvs, hup, hlen vs hvs]
  · intro msg hmsg
    simp [batch_store, hres, hmsg]
  · intro msg hup
    cases hvs : embedDocuments c.provider (entries.map (·.content)) <;>
      simp [batch_store, hres, hvs, hup]
  · cases hvs : embedDocuments c.provider (entries.map (·.content)) with
    | error e => simp [batch_store, hres, hvs]
    | ok vs =>
      cases hup : w.upsertErr with
      | some msg => simp [batch_store, hres, hvs, hup]
      | none => simp [batch_store, hres, hvs, hup, hlen vs hvs]

/-- Witness for C3 at a concrete connector and a two-entry batch. -/
theorem C3_witness :
    pyOr none connA.defaultCollection = some "memories" ∧
    (batch_store connA wA st0 [⟨"a", none, none⟩, ⟨"b", none, some "p1"⟩] none).res =
      .ok 2 := by
  refine ⟨rfl, ?_⟩
  exact (C3_batch_all_or_nothing connA wA st0 [⟨"a", none, none⟩, ⟨"b", none, some "p1"⟩]
    none "memories" rfl).1 [[1], [1]] rfl rfl

/-! ## C8 -/

/-- C8: the distance string of `create_collection_with_config` is
lower-cased and matched against exactly the four names cosine, dot,
euclidean and manhattan; any other string falls back to the cosine
metric, and a successful creation with such an unrecognized string still
returns true (with the created collection using cosine distance). -/
theorem C8_distance_fallback (c : Connector) (w : World) (st : DBState)
    (name : String) (size : Nat) (s : String) (prov : Option EmbeddingProvider)
    (hbad : pyLower s ≠ "cosine" ∧ pyLower s ≠ "dot" ∧
      pyLower s ≠ "euclidean" ∧ pyLower s ≠ "manhattan")
    (hnew : st.hasCol name = false) (hok : w.createErr = none) :
    parseDistance s = .cosine ∧
    (create_collection_with_config c w st name size s prov).res = .ok true ∧
    (∃ col, lookupCol
        (create_collection_with_config c w st name size s prov).st.collections name =
          some col ∧
      col.vectorsConfig = [((match prov with
        | some p => p.vectorName
        | none => c.provider.vectorName), ⟨size, Distance.cosine⟩)]) ∧
    (∀ t : String, (pyLower t = "cosine" → parseDistance t = .cosine) ∧
      (pyLower t = "dot" → parseDistance t = .dot) ∧
      (pyLower t = "euclidean" → parseDistance t = .euclid) ∧
      (pyLower t = "manhattan" → parseDistance t = .manhattan)) := by
  obtain ⟨h1, h2, h3, h4⟩ := hbad
  have hl : lookupCol st.collections name = none := (hasCol_false_iff st name).mp hnew
  have hd : parseDistance s = .cosine := by
    have hnone : lookupDistance distance_map (pyLower s) = none := by
      simp only [distance_map, lookupDistance]
      rw [if_neg (fun h => h1 h.symm), if_neg (fun h => h2 h.symm),
        if_neg (fun h => h3 h.symm), if_neg (fun h => h4 h.symm)]
    simp [parseDistance, hnone]
  refine ⟨hd, ?_, ?_, ?_⟩
  · simp [create_collection_with_config, hl, hok]
  · refine ⟨applyIndexes ⟨[((match prov with
      | some p => p.vectorName
      | none => c.provider.vectorName), ⟨size, parseDistance s⟩)], [], []⟩
        c.fieldIndexes, ?_, ?_⟩
    · simp [create_collection_with_config, hl, hok, lookupCol_insertCol_self]
    · simp [applyIndexes, hd]
  · intro t
    refine ⟨?_, ?_, ?_, ?_⟩ <;> intro ht <;>
      simp [parseDistance, distance_map, lookupDistance, ht]

/-- Witness for C8 with the distance string "bogus". -/
theorem C8_witness :
    (pyLower "bogus" ≠ "cosine" ∧ pyLower "bogus" ≠ "dot" ∧
      pyLower "bogus" ≠ "euclidean" ∧ pyLower "bogus" ≠ "manhattan") ∧
    st0.hasCol "memories" = false ∧ wA.createErr = none ∧
    (create_collection_with_config connA wA st0 "memories" 384 "bogus" none).res =
      .ok true := by
  refine ⟨⟨by decide, by decide, by decide, by decide⟩, rfl, rfl, ?_⟩
  exact (C8_distance_fallback connA wA st0 "memories" 384 "bogus" none
    ⟨by decide, by decide, by decide, by decide⟩ rfl rfl).2.1

/-! ## C10 -/

/-- C10: in the point-construction loop of `batch_store`, a batch entry
whose caller-supplied id is the empty string is treated exactly as one
with no id at all: the point gets the next freshly drawn uuid, and (as
`uuid4().hex` is never empty) never the empty string; and under a
resolvable name with successful embedding and upsert, `batch_store`
upserts exactly the points this loop constructs. -/
theorem C10_empty_id_is_fresh (c : Connector) (w : World) (st : DBState)
    (content : String) (md : Option Metadata) (v : Vec)
    (rest : List (BatchEntry × Vec)) (k : Nat) (vn mdk : String)
    (entries : List BatchEntry) (arg : Option String) (cname : String)
    (vs : List Vec)
    (hres : pyOr arg c.defaultCollection = some cname)
    (hemb : embedDocuments c.provider (entries.map (·.content)) = .ok vs)
    (hup : w.upsertErr = none) :
    buildPoints vn mdk w ((⟨content, md, some ""⟩, v) :: rest) k =
      buildPoints vn mdk w ((⟨content, md, none⟩, v) :: rest) k ∧
    ((buildPoints vn mdk w ((⟨content, md, some ""⟩, v) :: rest) k).head?.map Point.id) =
      some (w.uuidHex k) ∧
    (w.uuidHex k ≠ "" →
      ((buildPoints vn mdk w ((⟨content, md, some ""⟩, v) :: rest) k).head?.map Point.id) ≠
        some "") ∧
    (batch_store c w st entries arg).st =
      upsertState (ensure_collection_exists c st cname).1 cname
        (buildPoints c.provider.vectorName METADATA_PATH w (entries.zip vs) 0) := by
  refine ⟨by simp [buildPoints], by simp [buildPoints], ?_, ?_⟩
  · intro hne
    simp [buildPoints, hne]
  · simp [batch_store, hres, hemb, hup]

/-- Witness for C10 at a concrete batch. -/
theorem C10_witness :
    buildPoints "vn" "metadata" wA [(⟨"a", none, some ""⟩, [1])] 0 =
      buildPoints "vn" "metadata" wA [(⟨"a", none, none⟩, [1])] 0 ∧
    ((buildPoints "vn" "metadata" wA [(⟨"a", none, some ""⟩, [1])] 0).head?.map Point.id) =
      some (wA.uuidHex 0) := by
  have h := C10_empty_id_is_fresh connA wA st0 "a" none [1] [] 0 "vn" "metadata"
    [⟨"a", none, some ""⟩] none "memories" [[1]] rfl rfl rfl
  exact ⟨h.1, h.2.1⟩

/-! ## C9 -/

/-- A payload-less point always maps to the synthetic entry carrying its
own identifier. -/
theorem scrollEntry_no_payload (wp : Bool) (p : Point) (h : p.payload = []) :
    scrollEntry wp p = .ok ⟨"Point ID: " ++ p.id, some [("point_id", p.id)]⟩ := by
  simp [scrollEntry, h]

/-- A well-typed payload always maps to some entry (no validation
failure). -/
theorem scrollEntry_ok_of_wellTyped (wp : Bool) (p : Point)
    (h : wellTypedPayload p.payload = true) : ∃ e, scrollEntry wp p = .ok e := by
  rw [scrollEntry]
  by_cases hc : (wp && !p.payload.isEmpty) = true
  · rw [if_pos hc]
    rw [wellTypedPayload, Bool.and_eq_true] at h
    cases hd : payloadGet p.payload "document" with
    | none =>
      cases hm : payloadGet p.payload METADATA_PATH with
      | none => exact ⟨_, rfl⟩
      | some pv =>
        cases pv with
        | pstr s => rw [hm] at h; simp at h
        | pmeta m => exact ⟨_, rfl⟩
    | some dv =>
      cases dv with
      | pmeta m => rw [hd] at h; simp at h
      | pstr s =>
        cases hm : payloadGet p.payload METADATA_PATH with
        | none => exact ⟨_, rfl⟩
        | some pv =>
          cases pv with
          | pstr t => rw [hm] at h; simp at h
          | pmeta m => exact ⟨_, rfl⟩
  · rw [if_neg hc]
    exact ⟨_, rfl⟩

/-- C9: when the scroll page maps without a validation failure (in
particular whenever every scrolled payload is well typed), every point
of the page yields exactly one entry — the entry count equals the point
count — and every payload-less point yields the synthetic entry
`Entry("Point ID: " ++ id, {point_id: id})` rather than being dropped. -/
theorem C9_scroll_drops_nothing (c : Connector) (w : World) (st : DBState)
    (arg : Option String) (cname : String) (col : Collection)
    (lim : Nat) (off : Option String)
    (hres : pyOr arg c.defaultCollection = some cname)
    (hcol : lookupCol st.collections cname = some col)
    (hserr : w.scrollErr = none)
    (hwt : ∀ p ∈ (scrollModel col lim off).1, wellTypedPayload p.payload = true) :
    ∃ es, (scroll_collection c w st arg lim off true).res =
        .ok (es, (scrollModel col lim off).2) ∧
      es.length = (scrollModel col lim off).1.length ∧
      ∀ p ∈ (scrollModel col lim off).1, p.payload = [] →
        (⟨"Point ID: " ++ p.id, some [("point_id", p.id)]⟩ : Entry) ∈ es := by
  obtain ⟨es, hes⟩ := mapExcept_total (scrollEntry true) (scrollModel col lim off).1
    (fun p hp => scrollEntry_ok_of_wellTyped true p (hwt p hp))
  refine ⟨es, ?_, mapExcept_ok_length _ _ _ hes, ?_⟩
  · simp [scroll_collection, hres, hcol, hserr, hes]
  · intro p hp hempty
    exact mapExcept_mem (scrollEntry true) _ es hes p hp _
      (scrollEntry_no_payload true p hempty)

/-- Witness for C9: a one-point collection whose point has an empty
payload still yields one (synthetic) entry. -/
theorem C9_witness :
    (∀ p ∈ (scrollModel ⟨[], [⟨"p7", [], []⟩], []⟩ 100 none).1,
      wellTypedPayload p.payload = true) ∧
    ∃ es, (scroll_collection connA wA
        ⟨[("memories", ⟨[], [⟨"p7", [], []⟩], []⟩)]⟩ none 100 none true).res =
        .ok (es, (scrollModel ⟨[], [⟨"p7", [], []⟩], []⟩ 100 none).2) ∧
      es.length = 1 ∧
      (⟨"Point ID: " ++ "p7", some [("point_id", "p7")]⟩ : Entry) ∈ es := by
  refine ⟨by decide, ?_⟩
  obtain ⟨es, h1, h2, h3⟩ := C9_scroll_drops_nothing connA wA
    ⟨[("memories", ⟨[], [⟨"p7", [], []⟩], []⟩)]⟩ none "memories"
    ⟨[], [⟨"p7", [], []⟩], []⟩ 100 none rfl rfl rfl (by decide)
  exact ⟨es, h1, by rw [h2]; decide, h3 ⟨"p7", [], []⟩ (by decide) rfl⟩

/-! ## C6 -/

/-- C6: a collection auto-created on a write path (`store` or
`batch_store` reaching a not-yet-existing collection) is created with
exactly one vector slot — named after the active provider, sized per the
provider, cosine distance — and all configured field indexes are created
immediately after the creation call; when the collection already exists,
neither write path issues any creation or index-creation call. -/
theorem C6_write_path_creation (c : Connector) (w : World) (st : DBState)
    (e : Entry) (entries : List BatchEntry) (name : String)
    (hne : name ≠ "") (hnew : st.hasCol name = false) :
    (∃ col, lookupCol (ensure_collection_exists c st name).1.collections name =
        some col ∧
      col.vectorsConfig =
        [(c.provider.vectorName, ⟨c.provider.vectorSize, Distance.cosine⟩)] ∧
      col.indexes = c.fieldIndexes.map Prod.fst) ∧
    (ensure_collection_exists c st name).2 =
      [Call.collectionExists (some name), Call.createCollection name] ++
        c.fieldIndexes.map (fun fi => Call.createPayloadIndex name fi.1) ∧
    (∃ rest, (store c w st e (some name)).trace =
      (ensure_collection_exists c st name).2 ++ rest) ∧
    (∃ rest, (batch_store c w st entries (some name)).trace =
      (ensure_collection_exists c st name).2 ++ rest) ∧
    (∀ st₂ : DBState, st₂.hasCol name = true →
      countCreates (store c w st₂ e (some name)).trace = 0 ∧
      countIndexCalls (store c w st₂ e (some name)).trace = 0 ∧
      countCreates (batch_store c w st₂ entries (some name)).trace = 0 ∧
      countIndexCalls (batch_store c w st₂ entries (some name)).trace = 0) := by
  have hl : lookupCol st.collections name = none := (hasCol_false_iff st name).mp hnew
  refine ⟨?_, ?_, ?_, ?_, ?_⟩
  · refine ⟨applyIndexes
      ⟨[(c.provider.vectorName, ⟨c.provider.vectorSize, .cosine⟩)], [], []⟩
      c.fieldIndexes, ?_, ?_, ?_⟩ <;>
      simp [ensure_collection_exists, hl, lookupCol_insertCol_self, applyIndexes]
  · simp [ensure_collection_exists, hl]
  · cases hemb : c.provider.embedDoc e.content with
    | error msg => exact ⟨[.embedDocuments 1], by simp [store, pyOr, hne, hemb]⟩
    | ok v =>
      cases hup : w.upsertErr with
      | some msg =>
        exact ⟨[.embedDocuments 1, .upsert name 1],
          by simp [store, pyOr, hne, hemb, hup]⟩
      | none =>
        exact ⟨[.embedDocuments 1, .upsert name 1],
          by simp [store, pyOr, hne, hemb, hup]⟩
  · cases hemb : embedDocuments c.provider (entries.map (·.content)) with
    | error msg =>
      exact ⟨[.embedDocuments entries.length],
        by simp [batch_store, pyOr, hne, hemb]⟩
    | ok vs =>
      cases hup : w.upsertErr with
      | some msg =>
        exact ⟨[.embedDocuments entries.length,
          .upsert name (buildPoints c.provider.vectorName METADATA_PATH w
            (entries.zip vs) 0).length],
          by simp [batch_store, pyOr, hne, hemb, hup]⟩
      | none =>
        exact ⟨[.embedDocuments entries.length,
          .upsert name (buildPoints c.provider.vectorName METADATA_PATH w
            (entries.zip vs) 0).length],
          by simp [batch_store, pyOr, hne, hemb, hup]⟩
  · intro st₂ hex
    obtain ⟨col₂, hcol₂⟩ := (hasCol_true_iff st₂ name).mp hex
    have hens : ensure_collection_exists c st₂ name =
        (st₂, [Call.collectionExists (some name)]) := by
      simp [ensure_collection_exists, hcol₂]
    refine ⟨?_, ?_, ?_, ?_⟩
    · cases hemb : c.provider.embedDoc e.content with
      | error msg => simp [store, pyOr, hne, hemb, hens, countCreates]
      | ok v =>
        cases hup : w.upsertErr with
        | some msg => simp [store, pyOr, hne, hemb, hup, hens, countCreates]
        | none => simp [store, pyOr, hne, hemb, hup, hens, countCreates]
    · cases hemb : c.provider.embedDoc e.content with
      | error msg => simp [store, pyOr, hne, hemb, hens, countIndexCalls]
      | ok v =>
        cases hup : w.upsertErr with
        | some msg => simp [store, pyOr, hne, hemb, hup, hens, countIndexCalls]
        | none => simp [store, pyOr, hne, hemb, hup, hens, countIndexCalls]
    · cases hemb : embedDocuments c.provider (entries.map (·.content)) with
      | error msg => simp [batch_store, pyOr, hne, hemb, hens, countCreates]
      | ok vs =>
        cases hup : w.upsertErr with
        | some msg => simp [batch_store, pyOr, hne, hemb, hup, hens, countCreates]
        | none => simp [batch_store, pyOr, hne, hemb, hup, hens, countCreates]
    · cases hemb : embedDocuments c.provider (entries.map (·.content)) with
      | error msg => simp [batch_store, pyOr, hne, hemb, hens, countIndexCalls]
      | ok vs =>
        cases hup : w.upsertErr with
        | some msg =>
          simp [batch_store, pyOr, hne, hemb, hup, hens, countIndexCalls]
        | none => simp [batch_store, pyOr, hne, hemb, hup, hens, countIndexCalls]

/-- Witness for C6 at a concrete connector, entry, and fresh name. -/
theorem C6_witness :
    ("mem2" ≠ "") ∧ st0.hasCol "mem2" = false ∧
    ∃ col, lookupCol
        (ensure_collection_exists connA st0 "mem2").1.collections "mem2" =
          some col ∧
      col.vectorsConfig =
        [(connA.provider.vectorName, ⟨connA.provider.vectorSize, Distance.cosine⟩)] ∧
      col.indexes = connA.fieldIndexes.map Prod.fst := by
  refine ⟨by decide, rfl, ?_⟩
  exact (C6_write_path_creation connA wA st0 ⟨"a", none⟩ [] "mem2"
    (by decide) rfl).1

/-! ## C1 -/

/-- C1: after a successful `store` of an entry into a fresh collection,
a `search` over the same collection whose query is the stored content
returns (within any positive result limit) an entry whose content and
metadata equal the stored ones unchanged; the metadata key `store`
writes (`METADATA_PATH`) is the very key `search` reads back. -/
theorem C1_store_search_round_trip (c : Connector) (w : World) (st : DBState)
    (e : Entry) (arg : Option String) (cname : String) (lim : Nat) (v qv : Vec)
    (hres : pyOr arg c.defaultCollection = some cname)
    (hnew : st.hasCol cname = false)
    (hemb : c.provider.embedDoc e.content = .ok v)
    (hq : c.provider.embedQuery e.content = .ok qv)
    (hup : w.upsertErr = none)
    (hlim : 1 ≤ lim) :
    (store c w st e arg).res = .ok () ∧
    (search c w (store c w st e arg).st e.content arg lim).res =
      .ok [⟨e.content, e.metadata⟩] ∧
    METADATA_PATH = "metadata" := by
  obtain ⟨n, rfl⟩ : ∃ n, lim = n + 1 := ⟨lim - 1, by omega⟩
  have hl : lookupCol st.collections cname = none := (hasCol_false_iff st cname).mp hnew
  refine ⟨by simp [store, hres, hemb, hup], ?_, rfl⟩
  simp [store, search, hres, hemb, hq, hup, hl, ensure_collection_exists,
    upsertState, lookupCol_insertCol_self, Collection.upsert, applyIndexes,
    queryPointsModel, lookupVec, sortDesc, insertDesc, METADATA_PATH,
    mapExcept, entryFromPayload, payloadGet]

/-- Witness for C1 at a concrete connector, entry, and metadata. -/
theorem C1_witness :
    pyOr none connA.defaultCollection = some "memories" ∧
    st0.hasCol "memories" = false ∧
    (store connA wA st0 ⟨"hello", some [("k", "v")]⟩ none).res = .ok () ∧
    (search connA wA (store connA wA st0 ⟨"hello", some [("k", "v")]⟩ none).st
        "hello" none 10).res =
      .ok [⟨"hello", some [("k", "v")]⟩] := by
  have h := C1_store_search_round_trip connA wA st0 ⟨"hello", some [("k", "v")]⟩
    none "memories" 10 [5] [5] rfl rfl rfl rfl rfl (by omega)
  exact ⟨rfl, rfl, h.1, h.2.1⟩

end MCPQdrant

